import Mathlib

/-!
# Verification of the pension-vs-personal-savings projection engine

Shallow embedding of `src/pension_calculator.py` (the Streamlit pension
calculator).  The script's core is two sequential loops: a work phase over
`range(1, work_years + 1)` and a retirement phase over
`range(1, retirement_years + 1)`, each updating a handful of scalar
accumulators and appending to the label list `years`, the series
`pension_fund_values` / `personal_fund_values`, and the table `yearly_data`.

Monetary quantities are Python floats; the spec declares them real numbers
with no rounding during computation, so we model them as `ℚ` (exact field
arithmetic, executable).  The formatted strings of the table are a
presentation concern; the table rows are embedded with their numeric values.
-/

/-- Input assumptions, with the source's variable names.  The rate fields
are already converted multipliers (the UI does `value / 100 + 1`, or
`value / 100` for `pension_tax_rate`); `promotion_years` is the parsed list
of integers from the free-text field (digits only, hence naturals). -/
structure Assumptions where
  step_increase : ℚ
  starting_wage : ℚ
  work_years : ℕ
  cola_increase : ℚ
  promotion_years : List ℕ
  retirement_years : ℕ
  promotion_increase : ℚ
  pension_tax_rate : ℚ
  starting_allowance : ℚ
  index_returns_rate : ℚ
deriving DecidableEq, Repr

/-- One row of the `yearly_data` table (numeric values of the formatted
cells).  Work rows carry the period's salary; retirement rows have no
`Salary` entry in the source dict, hence `none`. -/
structure YearRow where
  year : String
  salary : Option ℚ
  pension_taxed : ℚ
  pension_taxed_total : ℚ
  pension_redeemed : ℚ
  pension_redeemed_total : ℚ
  market_returns : ℚ
  balance : ℚ
deriving DecidableEq, Repr

/-- The script's mutable accumulators and growing containers. -/
structure SimState where
  pension_taxed_total : ℚ
  pension_redeemed_total : ℚ
  personal_balance : ℚ
  salary : ℚ
  pension_redeemed : ℚ
  years : List String
  pension_fund_values : List ℚ
  personal_fund_values : List ℚ
  yearly_data : List YearRow
deriving DecidableEq, Repr

/-- Salary escalation at the end of work period `work_year`
(source lines 186-190): multiply by COLA; then, if `1 <= work_year < 5`,
by the step increase; then, if `work_year in promotion_years`, by the
promotion increase. -/
def nextSalary (a : Assumptions) (work_year : ℕ) (salary : ℚ) : ℚ :=
  let s₁ := salary * a.cola_increase
  let s₂ := if 1 ≤ work_year ∧ work_year < 5 then s₁ * a.step_increase else s₁
  if work_year ∈ a.promotion_years then s₂ * a.promotion_increase else s₂

/-- The table row appended during work period `work_year` from state `s`
(source lines 173-183).  `Pension Redeemed` columns are the literal `"$0"`. -/
def workRowOf (a : Assumptions) (work_year : ℕ) (s : SimState) : YearRow :=
  let pension_tax_this_year := s.salary * a.pension_tax_rate
  let market_returns := s.personal_balance * (a.index_returns_rate - 1)
  { year := "W" ++ toString work_year
    salary := some s.salary
    pension_taxed := pension_tax_this_year
    pension_taxed_total := s.pension_taxed_total + pension_tax_this_year
    pension_redeemed := 0
    pension_redeemed_total := 0
    market_returns := market_returns
    balance := s.personal_balance + market_returns + pension_tax_this_year }

/-- Body of the work-phase loop (source lines 159-190). -/
def workStep (a : Assumptions) (work_year : ℕ) (s : SimState) : SimState :=
  let pension_tax_this_year := s.salary * a.pension_tax_rate
  let market_returns := s.personal_balance * (a.index_returns_rate - 1)
  let personal_balance := s.personal_balance + market_returns + pension_tax_this_year
  { s with
    pension_taxed_total := s.pension_taxed_total + pension_tax_this_year
    personal_balance := personal_balance
    years := s.years ++ ["W" ++ toString work_year]
    pension_fund_values := s.pension_fund_values ++ [0]
    personal_fund_values := s.personal_fund_values ++ [personal_balance]
    yearly_data := s.yearly_data ++ [workRowOf a work_year s]
    salary := nextSalary a work_year s.salary }

/-- The table row appended during retirement period `ret_year` from state `s`
(source lines 206-213).  No `Salary` key; `Pension Taxed` columns are the
literal `"$0"`. -/
def retRowOf (a : Assumptions) (ret_year : ℕ) (s : SimState) : YearRow :=
  let market_returns := s.personal_balance * (a.index_returns_rate - 1)
  { year := "R" ++ toString ret_year
    salary := none
    pension_taxed := 0
    pension_taxed_total := 0
    pension_redeemed := s.pension_redeemed
    pension_redeemed_total := s.pension_redeemed_total + s.pension_redeemed
    market_returns := market_returns
    balance := s.personal_balance - s.pension_redeemed + market_returns }

/-- Body of the retirement-phase loop (source lines 193-217). -/
def retStep (a : Assumptions) (ret_year : ℕ) (s : SimState) : SimState :=
  let market_returns := s.personal_balance * (a.index_returns_rate - 1)
  let personal_balance := s.personal_balance - s.pension_redeemed + market_returns
  { s with
    pension_redeemed_total := s.pension_redeemed_total + s.pension_redeemed
    personal_balance := personal_balance
    years := s.years ++ ["R" ++ toString ret_year]
    pension_fund_values := s.pension_fund_values ++ [s.pension_redeemed_total + s.pension_redeemed]
    personal_fund_values := s.personal_fund_values ++ [personal_balance]
    yearly_data := s.yearly_data ++ [retRowOf a ret_year s]
    pension_redeemed := s.pension_redeemed * a.cola_increase }

/-- Initialisation (source lines 139-156): zero accumulators, salary at the
starting wage, allowance at the starting allowance, the series seeded with
the `W0` baseline entry of value 0, and an empty table. -/
def initState (a : Assumptions) : SimState :=
  { pension_taxed_total := 0
    pension_redeemed_total := 0
    personal_balance := 0
    salary := a.starting_wage
    pension_redeemed := a.starting_allowance
    years := ["W0"]
    pension_fund_values := [0]
    personal_fund_values := [0]
    yearly_data := [] }

/-- State after the first `k` work periods (`range(1, work_years+1)` is
`List.range' 1 work_years`; `workState a a.work_years` is the end of the
work phase). -/
def workState (a : Assumptions) (k : ℕ) : SimState :=
  (List.range' 1 k).foldl (fun s n => workStep a n s) (initState a)

/-- State after the first `m` retirement periods, continuing from the end
of the work phase. -/
def retState (a : Assumptions) (m : ℕ) : SimState :=
  (List.range' 1 m).foldl (fun s n => retStep a n s) (workState a a.work_years)

/-- The full projection: the final state after both loops. -/
def project (a : Assumptions) : SimState :=
  retState a a.retirement_years

/-- The four summary scalars rendered at source lines 270-273. -/
structure Summary where
  total_pension_tax_paid : ℚ
  total_pension_redeemed : ℚ
  fund_value_at_retirement : ℚ
  fund_value_at_death : ℚ
deriving DecidableEq, Repr

/-- Summary section: totals are the final accumulators;
`Personal Fund Value at Retirement` is `personal_fund_values[work_years]`,
`Personal Fund Value at Death` is the final `personal_balance`. -/
def summary (a : Assumptions) : Summary :=
  let s := project a
  { total_pension_tax_paid := s.pension_taxed_total
    total_pension_redeemed := s.pension_redeemed_total
    fund_value_at_retirement := s.personal_fund_values.getD a.work_years 0
    fund_value_at_death := s.personal_balance }

/-! ## Basic recursion and preservation lemmas -/

theorem workState_zero (a : Assumptions) : workState a 0 = initState a := rfl

theorem workState_succ (a : Assumptions) (k : ℕ) :
    workState a (k + 1) = workStep a (k + 1) (workState a k) := by
  unfold workState
  rw [List.range'_1_concat, List.foldl_append, Nat.add_comm 1 k]
  rfl

theorem retState_zero (a : Assumptions) : retState a 0 = workState a a.work_years := rfl

theorem retState_succ (a : Assumptions) (m : ℕ) :
    retState a (m + 1) = retStep a (m + 1) (retState a m) := by
  unfold retState
  rw [List.range'_1_concat, List.foldl_append, Nat.add_comm 1 m]
  rfl

theorem workState_pension_redeemed (a : Assumptions) (k : ℕ) :
    (workState a k).pension_redeemed = a.starting_allowance := by
  induction k with
  | zero => rfl
  | succ k ih => rw [workState_succ]; exact ih

theorem workState_pension_redeemed_total (a : Assumptions) (k : ℕ) :
    (workState a k).pension_redeemed_total = 0 := by
  induction k with
  | zero => rfl
  | succ k ih => rw [workState_succ]; exact ih

theorem retState_pension_taxed_total (a : Assumptions) (m : ℕ) :
    (retState a m).pension_taxed_total = (workState a a.work_years).pension_taxed_total := by
  induction m with
  | zero => rfl
  | succ m ih => rw [retState_succ]; exact ih

/-! ## Shapes of the accumulated series and table -/

theorem workState_years (a : Assumptions) (k : ℕ) :
    (workState a k).years = "W0" :: (List.range' 1 k).map (fun n => "W" ++ toString n) := by
  induction k with
  | zero => rfl
  | succ k ih =>
    rw [workState_succ, List.range'_1_concat]
    show (workState a k).years ++ ["W" ++ toString (k + 1)] = _
    rw [ih]
    simp [Nat.add_comm]

theorem retState_years (a : Assumptions) (m : ℕ) :
    (retState a m).years =
      (workState a a.work_years).years ++ (List.range' 1 m).map (fun n => "R" ++ toString n) := by
  induction m with
  | zero => simp [retState_zero]
  | succ m ih =>
    rw [retState_succ, List.range'_1_concat]
    show (retState a m).years ++ ["R" ++ toString (m + 1)] = _
    rw [ih]
    simp [Nat.add_comm]

theorem workState_pension_fund_values (a : Assumptions) (k : ℕ) :
    (workState a k).pension_fund_values = 0 :: List.replicate k (0 : ℚ) := by
  induction k with
  | zero => rfl
  | succ k ih =>
    rw [workState_succ]
    show (workState a k).pension_fund_values ++ [0] = _
    rw [ih, List.replicate_succ' k (0 : ℚ)]
    rfl

theorem retState_pension_fund_values (a : Assumptions) (m : ℕ) :
    (retState a m).pension_fund_values =
      (workState a a.work_years).pension_fund_values
        ++ (List.range' 1 m).map (fun j => (retState a j).pension_redeemed_total) := by
  induction m with
  | zero => simp [retState_zero]
  | succ m ih =>
    rw [retState_succ, List.range'_1_concat]
    show (retState a m).pension_fund_values
        ++ [(retState a m).pension_redeemed_total + (retState a m).pension_redeemed] = _
    rw [ih]
    have : (retState a m).pension_redeemed_total + (retState a m).pension_redeemed
        = (retState a (m + 1)).pension_redeemed_total := by
      rw [retState_succ]; rfl
    rw [this]
    simp [Nat.add_comm]

theorem workState_personal_fund_values (a : Assumptions) (k : ℕ) :
    (workState a k).personal_fund_values =
      0 :: (List.range' 1 k).map (fun n => (workState a n).personal_balance) := by
  induction k with
  | zero => rfl
  | succ k ih =>
    rw [workState_succ, List.range'_1_concat]
    show (workState a k).personal_fund_values
        ++ [(workStep a (k + 1) (workState a k)).personal_balance] = _
    rw [← workState_succ, ih]
    simp [Nat.add_comm]

theorem retState_personal_fund_values (a : Assumptions) (m : ℕ) :
    (retState a m).personal_fund_values =
      (workState a a.work_years).personal_fund_values
        ++ (List.range' 1 m).map (fun j => (retState a j).personal_balance) := by
  induction m with
  | zero => simp [retState_zero]
  | succ m ih =>
    rw [retState_succ, List.range'_1_concat]
    show (retState a m).personal_fund_values
        ++ [(retStep a (m + 1) (retState a m)).personal_balance] = _
    rw [← retState_succ, ih]
    simp [Nat.add_comm]

theorem workState_yearly_data (a : Assumptions) (k : ℕ) :
    (workState a k).yearly_data =
      (List.range' 1 k).map (fun n => workRowOf a n (workState a (n - 1))) := by
  induction k with
  | zero => rfl
  | succ k ih =>
    rw [workState_succ, List.range'_1_concat]
    show (workState a k).yearly_data ++ [workRowOf a (k + 1) (workState a k)] = _
    rw [ih]
    simp [Nat.add_comm]

theorem retState_yearly_data (a : Assumptions) (m : ℕ) :
    (retState a m).yearly_data =
      (workState a a.work_years).yearly_data
        ++ (List.range' 1 m).map (fun j => retRowOf a j (retState a (j - 1))) := by
  induction m with
  | zero => simp [retState_zero]
  | succ m ih =>
    rw [retState_succ, List.range'_1_concat]
    show (retState a m).yearly_data ++ [retRowOf a (m + 1) (retState a m)] = _
    rw [ih]
    simp [Nat.add_comm]

/-! ## Nonnegativity invariants -/

theorem nextSalary_nonneg (a : Assumptions) (n : ℕ) {x : ℚ} (hx : 0 ≤ x)
    (hcola : 0 ≤ a.cola_increase) (hstep : 0 ≤ a.step_increase)
    (hprom : 0 ≤ a.promotion_increase) : 0 ≤ nextSalary a n x := by
  unfold nextSalary
  dsimp only
  split <;> split
  · exact mul_nonneg (mul_nonneg (mul_nonneg hx hcola) hstep) hprom
  · exact mul_nonneg (mul_nonneg hx hcola) hprom
  · exact mul_nonneg (mul_nonneg hx hcola) hstep
  · exact mul_nonneg hx hcola

theorem workState_salary_nonneg (a : Assumptions) (k : ℕ)
    (hw : 0 ≤ a.starting_wage) (hcola : 0 ≤ a.cola_increase)
    (hstep : 0 ≤ a.step_increase) (hprom : 0 ≤ a.promotion_increase) :
    0 ≤ (workState a k).salary := by
  induction k with
  | zero => exact hw
  | succ k ih =>
    rw [workState_succ]
    show 0 ≤ nextSalary a (k + 1) (workState a k).salary
    exact nextSalary_nonneg a (k + 1) ih hcola hstep hprom

theorem retState_pension_redeemed_nonneg (a : Assumptions) (m : ℕ)
    (ha : 0 ≤ a.starting_allowance) (hcola : 0 ≤ a.cola_increase) :
    0 ≤ (retState a m).pension_redeemed := by
  induction m with
  | zero =>
    rw [retState_zero, workState_pension_redeemed]
    exact ha
  | succ m ih =>
    rw [retState_succ]
    show 0 ≤ (retState a m).pension_redeemed * a.cola_increase
    exact mul_nonneg ih hcola

/-! ## Claim C2: shape and labels of the projection -/

/-- C2: for every input, the projection has exactly
`1 + work_years + retirement_years` period entries, labelled
`W0, W1, …, W{work_years}, R1, …, R{retirement_years}` in that order, and
the `W0` baseline entry of both value series is zero. -/
theorem projection_period_labels (a : Assumptions) :
    (project a).years =
      "W0" :: ((List.range' 1 a.work_years).map (fun n => "W" ++ toString n)
        ++ (List.range' 1 a.retirement_years).map (fun n => "R" ++ toString n))
    ∧ (project a).years.length = 1 + a.work_years + a.retirement_years
    ∧ (project a).pension_fund_values.head? = some 0
    ∧ (project a).personal_fund_values.head? = some 0 := by
  have hy : (project a).years
      = (workState a a.work_years).years
        ++ (List.range' 1 a.retirement_years).map (fun n => "R" ++ toString n) :=
    retState_years a a.retirement_years
  refine ⟨?_, ?_, ?_, ?_⟩
  · rw [hy, workState_years]
    rfl
  · rw [hy, workState_years]
    simp only [List.length_append, List.length_cons, List.length_map, List.length_range']
    omega
  · show (retState a a.retirement_years).pension_fund_values.head? = some 0
    rw [retState_pension_fund_values, workState_pension_fund_values]
    rfl
  · show (retState a a.retirement_years).personal_fund_values.head? = some 0
    rw [retState_personal_fund_values, workState_personal_fund_values]
    rfl

/-! ## Claim C5: monotonicity of the cumulative totals -/

/-- C5: under the documented preconditions (nonnegative starting wage and
allowance, contribution rate in `[0,1]`, nonnegative rate multipliers), the
cumulative contribution total never decreases across work periods and is
unchanged during retirement, and the cumulative payout total is zero
throughout employment and never decreases across retirement periods. -/
theorem cumulative_totals_monotone (a : Assumptions)
    (hw : 0 ≤ a.starting_wage) (ha : 0 ≤ a.starting_allowance)
    (hc0 : 0 ≤ a.pension_tax_rate) (hc1 : a.pension_tax_rate ≤ 1)
    (hcola : 0 ≤ a.cola_increase) (hstep : 0 ≤ a.step_increase)
    (hprom : 0 ≤ a.promotion_increase) (hidx : 0 ≤ a.index_returns_rate) :
    (∀ k, (workState a k).pension_taxed_total ≤ (workState a (k + 1)).pension_taxed_total)
    ∧ (∀ m, (retState a m).pension_taxed_total = (workState a a.work_years).pension_taxed_total)
    ∧ (∀ k, (workState a k).pension_redeemed_total = 0)
    ∧ (∀ m, (retState a m).pension_redeemed_total ≤ (retState a (m + 1)).pension_redeemed_total) := by
  refine ⟨?_, retState_pension_taxed_total a, workState_pension_redeemed_total a, ?_⟩
  · intro k
    rw [workState_succ]
    show (workState a k).pension_taxed_total
        ≤ (workState a k).pension_taxed_total + (workState a k).salary * a.pension_tax_rate
    exact le_add_of_nonneg_right
      (mul_nonneg (workState_salary_nonneg a k hw hcola hstep hprom) hc0)
  · intro m
    rw [retState_succ]
    show (retState a m).pension_redeemed_total
        ≤ (retState a m).pension_redeemed_total + (retState a m).pension_redeemed
    exact le_add_of_nonneg_right (retState_pension_redeemed_nonneg a m ha hcola)

/-- A concrete sample input used to instantiate the conditional theorems. -/
def aEx : Assumptions :=
  { step_increase := 2, starting_wage := 1000, work_years := 3,
    cola_increase := 2, promotion_years := [2], retirement_years := 2,
    promotion_increase := 3, pension_tax_rate := 1,
    starting_allowance := 100, index_returns_rate := 2 }

/-- Instantiation of `cumulative_totals_monotone` at the sample input. -/
theorem cumulative_totals_monotone_witness :
    (0 ≤ aEx.starting_wage ∧ 0 ≤ aEx.starting_allowance ∧ 0 ≤ aEx.pension_tax_rate
      ∧ aEx.pension_tax_rate ≤ 1 ∧ 0 ≤ aEx.cola_increase ∧ 0 ≤ aEx.step_increase
      ∧ 0 ≤ aEx.promotion_increase ∧ 0 ≤ aEx.index_returns_rate)
    ∧ ((∀ k, (workState aEx k).pension_taxed_total ≤ (workState aEx (k + 1)).pension_taxed_total)
      ∧ (∀ m, (retState aEx m).pension_taxed_total = (workState aEx aEx.work_years).pension_taxed_total)
      ∧ (∀ k, (workState aEx k).pension_redeemed_total = 0)
      ∧ (∀ m, (retState aEx m).pension_redeemed_total ≤ (retState aEx (m + 1)).pension_redeemed_total)) :=
  ⟨⟨by decide, by decide, by decide, by decide, by decide, by decide, by decide, by decide⟩,
    cumulative_totals_monotone aEx (by decide) (by decide) (by decide) (by decide)
      (by decide) (by decide) (by decide) (by decide)⟩

/-! ## Claim C3: work-phase per-period arithmetic -/

/-- C3: in each work period `n`, the emitted record reports the
pre-escalation salary, a contribution of salary × contribution rate, a
return of balance × (return rate − 1), and the balance
old + return + contribution; the running state is updated accordingly. -/
theorem work_period_record (a : Assumptions) (n : ℕ)
    (h1 : 1 ≤ n) (h2 : n ≤ a.work_years) :
    (project a).yearly_data[n - 1]? = some
      { year := "W" ++ toString n
        salary := some (workState a (n - 1)).salary
        pension_taxed := (workState a (n - 1)).salary * a.pension_tax_rate
        pension_taxed_total := (workState a (n - 1)).pension_taxed_total
          + (workState a (n - 1)).salary * a.pension_tax_rate
        pension_redeemed := 0
        pension_redeemed_total := 0
        market_returns := (workState a (n - 1)).personal_balance * (a.index_returns_rate - 1)
        balance := (workState a (n - 1)).personal_balance
          + (workState a (n - 1)).personal_balance * (a.index_returns_rate - 1)
          + (workState a (n - 1)).salary * a.pension_tax_rate }
    ∧ (workState a n).personal_balance
        = (workState a (n - 1)).personal_balance
          + (workState a (n - 1)).personal_balance * (a.index_returns_rate - 1)
          + (workState a (n - 1)).salary * a.pension_tax_rate
    ∧ (workState a n).pension_taxed_total
        = (workState a (n - 1)).pension_taxed_total
          + (workState a (n - 1)).salary * a.pension_tax_rate := by
  obtain ⟨j, rfl⟩ : ∃ j, n = j + 1 := ⟨n - 1, by omega⟩
  simp only [Nat.add_sub_cancel]
  refine ⟨?_, ?_, ?_⟩
  · show (retState a a.retirement_years).yearly_data[j]? = _
    rw [retState_yearly_data, workState_yearly_data]
    rw [List.getElem?_append_left
      (by simp only [List.length_map, List.length_range']; omega)]
    rw [List.getElem?_map, List.getElem?_range' 1 1 (by omega)]
    simp only [Option.map_some']
    have hj : 1 + 1 * j = j + 1 := by omega
    rw [hj]
    simp only [Nat.add_sub_cancel]
    rfl
  · rw [workState_succ]; rfl
  · rw [workState_succ]; rfl

/-- Instantiation of `work_period_record` at the sample input, period 2. -/
theorem work_period_record_witness :
    (1 ≤ 2 ∧ 2 ≤ aEx.work_years)
    ∧ ((project aEx).yearly_data[2 - 1]? = some
      { year := "W" ++ toString 2
        salary := some (workState aEx (2 - 1)).salary
        pension_taxed := (workState aEx (2 - 1)).salary * aEx.pension_tax_rate
        pension_taxed_total := (workState aEx (2 - 1)).pension_taxed_total
          + (workState aEx (2 - 1)).salary * aEx.pension_tax_rate
        pension_redeemed := 0
        pension_redeemed_total := 0
        market_returns := (workState aEx (2 - 1)).personal_balance * (aEx.index_returns_rate - 1)
        balance := (workState aEx (2 - 1)).personal_balance
          + (workState aEx (2 - 1)).personal_balance * (aEx.index_returns_rate - 1)
          + (workState aEx (2 - 1)).salary * aEx.pension_tax_rate }
    ∧ (workState aEx 2).personal_balance
        = (workState aEx (2 - 1)).personal_balance
          + (workState aEx (2 - 1)).personal_balance * (aEx.index_returns_rate - 1)
          + (workState aEx (2 - 1)).salary * aEx.pension_tax_rate
    ∧ (workState aEx 2).pension_taxed_total
        = (workState aEx (2 - 1)).pension_taxed_total
          + (workState aEx (2 - 1)).salary * aEx.pension_tax_rate) :=
  ⟨⟨by decide, by decide⟩, work_period_record aEx 2 (by decide) (by decide)⟩

/-! ## Claim C4: retirement-phase per-period arithmetic -/

/-- C4: the retirement phase starts from the work phase's ending balance
with the allowance at `starting_allowance`; in each retirement period `m`
the allowance is added to the cumulative payout, the return is the
pre-withdrawal balance × (return rate − 1), the balance becomes
old − allowance + return, and after the record is emitted the allowance is
multiplied by the COLA rate. -/
theorem retirement_period_record (a : Assumptions) (m : ℕ)
    (h1 : 1 ≤ m) (h2 : m ≤ a.retirement_years) :
    (retState a 0).personal_balance = (workState a a.work_years).personal_balance
    ∧ (retState a 0).pension_redeemed = a.starting_allowance
    ∧ (project a).yearly_data[a.work_years + (m - 1)]? = some
      { year := "R" ++ toString m
        salary := none
        pension_taxed := 0
        pension_taxed_total := 0
        pension_redeemed := (retState a (m - 1)).pension_redeemed
        pension_redeemed_total := (retState a (m - 1)).pension_redeemed_total
          + (retState a (m - 1)).pension_redeemed
        market_returns := (retState a (m - 1)).personal_balance * (a.index_returns_rate - 1)
        balance := (retState a (m - 1)).personal_balance - (retState a (m - 1)).pension_redeemed
          + (retState a (m - 1)).personal_balance * (a.index_returns_rate - 1) }
    ∧ (retState a m).pension_redeemed_total
        = (retState a (m - 1)).pension_redeemed_total + (retState a (m - 1)).pension_redeemed
    ∧ (retState a m).personal_balance
        = (retState a (m - 1)).personal_balance - (retState a (m - 1)).pension_redeemed
          + (retState a (m - 1)).personal_balance * (a.index_returns_rate - 1)
    ∧ (retState a m).pension_redeemed
        = (retState a (m - 1)).pension_redeemed * a.cola_increase := by
  obtain ⟨j, rfl⟩ : ∃ j, m = j + 1 := ⟨m - 1, by omega⟩
  simp only [Nat.add_sub_cancel]
  refine ⟨rfl, workState_pension_redeemed a a.work_years, ?_, ?_, ?_, ?_⟩
  · show (retState a a.retirement_years).yearly_data[a.work_years + j]? = _
    rw [retState_yearly_data, workState_yearly_data]
    rw [List.getElem?_append_right
      (by simp only [List.length_map, List.length_range']; omega)]
    simp only [List.length_map, List.length_range', Nat.add_sub_cancel_left]
    rw [List.getElem?_map, List.getElem?_range' 1 1 (by omega)]
    simp only [Option.map_some']
    have hj : 1 + 1 * j = j + 1 := by omega
    rw [hj]
    simp only [Nat.add_sub_cancel]
    rfl
  · rw [retState_succ]; rfl
  · rw [retState_succ]; rfl
  · rw [retState_succ]; rfl

/-- Instantiation of `retirement_period_record` at the sample input, period 2. -/
theorem retirement_period_record_witness :
    (1 ≤ 2 ∧ 2 ≤ aEx.retirement_years)
    ∧ ((retState aEx 0).personal_balance = (workState aEx aEx.work_years).personal_balance
    ∧ (retState aEx 0).pension_redeemed = aEx.starting_allowance
    ∧ (project aEx).yearly_data[aEx.work_years + (2 - 1)]? = some
      { year := "R" ++ toString 2
        salary := none
        pension_taxed := 0
        pension_taxed_total := 0
        pension_redeemed := (retState aEx (2 - 1)).pension_redeemed
        pension_redeemed_total := (retState aEx (2 - 1)).pension_redeemed_total
          + (retState aEx (2 - 1)).pension_redeemed
        market_returns := (retState aEx (2 - 1)).personal_balance * (aEx.index_returns_rate - 1)
        balance := (retState aEx (2 - 1)).personal_balance - (retState aEx (2 - 1)).pension_redeemed
          + (retState aEx (2 - 1)).personal_balance * (aEx.index_returns_rate - 1) }
    ∧ (retState aEx 2).pension_redeemed_total
        = (retState aEx (2 - 1)).pension_redeemed_total + (retState aEx (2 - 1)).pension_redeemed
    ∧ (retState aEx 2).personal_balance
        = (retState aEx (2 - 1)).personal_balance - (retState aEx (2 - 1)).pension_redeemed
          + (retState aEx (2 - 1)).personal_balance * (aEx.index_returns_rate - 1)
    ∧ (retState aEx 2).pension_redeemed
        = (retState aEx (2 - 1)).pension_redeemed * aEx.cola_increase) :=
  ⟨⟨by decide, by decide⟩, retirement_period_record aEx 2 (by decide) (by decide)⟩

/-! ## Claim C6: neutral-rate boundary scenario -/

/-- C6: with one work year, one retirement year, all rate multipliers at
their neutral value 1 and no promotions, the single work period's
contribution is exactly starting wage × contribution rate (and its payout
zero), and the single retirement period's payout is exactly the starting
allowance (and its contribution zero). -/
theorem neutral_rates_boundary (w c al : ℚ) :
    ((project { step_increase := 1, starting_wage := w, work_years := 1,
                cola_increase := 1, promotion_years := [], retirement_years := 1,
                promotion_increase := 1, pension_tax_rate := c, starting_allowance := al,
                index_returns_rate := 1 }).yearly_data.map
      (fun r => (r.pension_taxed, r.pension_redeemed)))
      = [(w * c, 0), (0, al)] := rfl

/-! ## Claim C7: zero contribution rate keeps the balance at zero -/

/-- C7: with a zero contribution rate the personal balance, which starts
at zero, stays exactly zero after every work period, whatever the other
assumptions. -/
theorem zero_contribution_zero_balance (a : Assumptions)
    (h : a.pension_tax_rate = 0) :
    ∀ k, (workState a k).personal_balance = 0 := by
  intro k
  induction k with
  | zero => rfl
  | succ k ih =>
    rw [workState_succ]
    show (workState a k).personal_balance
        + (workState a k).personal_balance * (a.index_returns_rate - 1)
        + (workState a k).salary * a.pension_tax_rate = 0
    rw [ih, h]
    ring

/-- The sample input with the contribution rate set to zero. -/
def aZero : Assumptions := { aEx with pension_tax_rate := 0 }

/-- Instantiation of `zero_contribution_zero_balance` at the sample input. -/
theorem zero_contribution_zero_balance_witness :
    aZero.pension_tax_rate = 0 ∧ (workState aZero 3).personal_balance = 0 :=
  ⟨by decide, zero_contribution_zero_balance aZero (by decide) 3⟩

/-! ## Claim C8: no growth means balances are net cash flows -/

/-- C8: with return rate 1 every record of both phases has a zero
investment-return field, and after every period the balance equals the sum
over the records so far of deposits minus withdrawals. -/
theorem no_growth_net_flow_balance (a : Assumptions)
    (h : a.index_returns_rate = 1) :
    (∀ r ∈ (project a).yearly_data, r.market_returns = 0)
    ∧ (∀ k, (workState a k).personal_balance
        = ((workState a k).yearly_data.map
            (fun r => r.pension_taxed - r.pension_redeemed)).sum)
    ∧ (∀ m, (retState a m).personal_balance
        = ((retState a m).yearly_data.map
            (fun r => r.pension_taxed - r.pension_redeemed)).sum) := by
  have hwork : ∀ k, (workState a k).personal_balance
      = ((workState a k).yearly_data.map
          (fun r => r.pension_taxed - r.pension_redeemed)).sum := by
    intro k
    induction k with
    | zero => rfl
    | succ k ih =>
      rw [workState_succ]
      show (workState a k).personal_balance
          + (workState a k).personal_balance * (a.index_returns_rate - 1)
          + (workState a k).salary * a.pension_tax_rate
          = (((workState a k).yearly_data ++ [workRowOf a (k + 1) (workState a k)]).map
              (fun r => r.pension_taxed - r.pension_redeemed)).sum
      rw [List.map_append, List.sum_append, ← ih, h]
      simp only [List.map_cons, List.map_nil, List.sum_cons, List.sum_nil, workRowOf]
      ring
  have hret : ∀ m, (retState a m).personal_balance
      = ((retState a m).yearly_data.map
          (fun r => r.pension_taxed - r.pension_redeemed)).sum := by
    intro m
    induction m with
    | zero => exact hwork a.work_years
    | succ m ih =>
      rw [retState_succ]
      show (retState a m).personal_balance - (retState a m).pension_redeemed
          + (retState a m).personal_balance * (a.index_returns_rate - 1)
          = (((retState a m).yearly_data ++ [retRowOf a (m + 1) (retState a m)]).map
              (fun r => r.pension_taxed - r.pension_redeemed)).sum
      rw [List.map_append, List.sum_append, ← ih, h]
      simp only [List.map_cons, List.map_nil, List.sum_cons, List.sum_nil, retRowOf]
      ring
  refine ⟨?_, hwork, hret⟩
  intro r hr
  have hr' : r ∈ (retState a a.retirement_years).yearly_data := hr
  rw [retState_yearly_data, workState_yearly_data] at hr'
  rcases List.mem_append.mp hr' with hw | hrr
  · obtain ⟨n, _, rfl⟩ := List.mem_map.mp hw
    simp [workRowOf, h]
  · obtain ⟨n, _, rfl⟩ := List.mem_map.mp hrr
    simp [retRowOf, h]

/-- The sample input with the returns rate set to the neutral value 1. -/
def aOne : Assumptions := { aEx with index_returns_rate := 1 }

/-- Instantiation of `no_growth_net_flow_balance` at the sample input. -/
theorem no_growth_net_flow_balance_witness :
    aOne.index_returns_rate = 1
    ∧ ((∀ r ∈ (project aOne).yearly_data, r.market_returns = 0)
    ∧ (∀ k, (workState aOne k).personal_balance
        = ((workState aOne k).yearly_data.map
            (fun r => r.pension_taxed - r.pension_redeemed)).sum)
    ∧ (∀ m, (retState aOne m).personal_balance
        = ((retState aOne m).yearly_data.map
            (fun r => r.pension_taxed - r.pension_redeemed)).sum)) :=
  ⟨by decide, no_growth_net_flow_balance aOne (by decide)⟩

/-! ## Claim C9: promotion years have pure membership semantics -/

/-- The salary escalation only consults `promotion_years` through a
membership test. -/
theorem nextSalary_congr (a a' : Assumptions) (n : ℕ) (x : ℚ)
    (hcola : a'.cola_increase = a.cola_increase)
    (hstep : a'.step_increase = a.step_increase)
    (hpinc : a'.promotion_increase = a.promotion_increase)
    (hmem : n ∈ a'.promotion_years ↔ n ∈ a.promotion_years) :
    nextSalary a' n x = nextSalary a n x := by
  unfold nextSalary
  rw [hcola, hstep, hpinc]
  simp only [hmem]

/-- The work-phase loop body only depends on `promotion_years` through a
membership test on the current period. -/
theorem workStep_congr (a a' : Assumptions) (n : ℕ) (s : SimState)
    (hrate : a'.pension_tax_rate = a.pension_tax_rate)
    (hidx : a'.index_returns_rate = a.index_returns_rate)
    (hcola : a'.cola_increase = a.cola_increase)
    (hstep : a'.step_increase = a.step_increase)
    (hpinc : a'.promotion_increase = a.promotion_increase)
    (hmem : n ∈ a'.promotion_years ↔ n ∈ a.promotion_years) :
    workStep a' n s = workStep a n s := by
  unfold workStep workRowOf
  rw [hrate, hidx, nextSalary_congr a a' n s.salary hcola hstep hpinc hmem]

/-- C9: the projection is unchanged when `promotion_years` is replaced by
its set of values restricted to `[1, work_years]` with duplicates removed:
out-of-range and duplicate entries are inert. -/
theorem project_promotion_years_set_semantics (a : Assumptions) :
    project { a with promotion_years :=
        (a.promotion_years.filter
          (fun y => decide (1 ≤ y ∧ y ≤ a.work_years))).dedup }
      = project a := by
  have hmem : ∀ n, 1 ≤ n → n ≤ a.work_years →
      ((n ∈ (a.promotion_years.filter
          (fun y => decide (1 ≤ y ∧ y ≤ a.work_years))).dedup)
        ↔ n ∈ a.promotion_years) := by
    intro n h1 h2
    simp [List.mem_dedup, List.mem_filter, h1, h2]
  have hwork : workState { a with promotion_years :=
        (a.promotion_years.filter
          (fun y => decide (1 ≤ y ∧ y ≤ a.work_years))).dedup } a.work_years
      = workState a a.work_years := by
    unfold workState
    refine List.foldl_ext _ _ _ ?_
    intro s n hn
    rw [List.mem_range'_1] at hn
    exact workStep_congr a _ n s rfl rfl rfl rfl rfl (hmem n hn.1 (by omega))
  calc project { a with promotion_years :=
          (a.promotion_years.filter
            (fun y => decide (1 ≤ y ∧ y ≤ a.work_years))).dedup }
      = (List.range' 1 a.retirement_years).foldl (fun s n => retStep a n s)
          (workState { a with promotion_years :=
            (a.promotion_years.filter
              (fun y => decide (1 ≤ y ∧ y ≤ a.work_years))).dedup } a.work_years) := rfl
    _ = (List.range' 1 a.retirement_years).foldl (fun s n => retStep a n s)
          (workState a a.work_years) := by rw [hwork]
    _ = project a := rfl

/-! ## Claim C10: the two balance summary scalars -/

/-- C10: the `Personal Fund Value at Retirement` summary equals the balance
field of the last work record `W{work_years}`, and the `Personal Fund Value
at Death` summary equals the balance field of the last record overall,
`R{retirement_years}`. -/
theorem summary_balance_fields (a : Assumptions)
    (hw : 1 ≤ a.work_years) (hr : 1 ≤ a.retirement_years) :
    ∃ rW rR : YearRow,
      (project a).yearly_data[a.work_years - 1]? = some rW
      ∧ rW.year = "W" ++ toString a.work_years
      ∧ (summary a).fund_value_at_retirement = rW.balance
      ∧ (project a).yearly_data.getLast? = some rR
      ∧ rR.year = "R" ++ toString a.retirement_years
      ∧ (summary a).fund_value_at_death = rR.balance := by
  obtain ⟨jw, hjw⟩ : ∃ j, a.work_years = j + 1 := ⟨a.work_years - 1, by omega⟩
  obtain ⟨jr, hjr⟩ : ∃ j, a.retirement_years = j + 1 := ⟨a.retirement_years - 1, by omega⟩
  refine ⟨workRowOf a a.work_years (workState a (a.work_years - 1)),
          retRowOf a a.retirement_years (retState a (a.retirement_years - 1)),
          ?_, rfl, ?_, ?_, rfl, ?_⟩
  · show (retState a a.retirement_years).yearly_data[a.work_years - 1]? = _
    rw [retState_yearly_data, workState_yearly_data, hjw]
    simp only [Nat.add_sub_cancel]
    rw [List.getElem?_append_left
      (by simp only [List.length_map, List.length_range']; omega)]
    rw [List.getElem?_map, List.getElem?_range' 1 1 (by omega)]
    simp only [Option.map_some']
    have hj : 1 + 1 * jw = jw + 1 := by omega
    rw [hj]
    simp only [Nat.add_sub_cancel]
  · show ((retState a a.retirement_years).personal_fund_values).getD a.work_years 0
        = (workRowOf a a.work_years (workState a (a.work_years - 1))).balance
    have hb : (workRowOf a a.work_years (workState a (a.work_years - 1))).balance
        = (workState a a.work_years).personal_balance := by
      rw [hjw, workState_succ]
      simp only [Nat.add_sub_cancel]
      rfl
    rw [hb, retState_personal_fund_values, workState_personal_fund_values,
      List.getD_eq_getElem?_getD]
    rw [List.getElem?_append_left
      (by simp only [List.length_cons, List.length_map, List.length_range']; omega)]
    rw [hjw, List.getElem?_cons_succ]
    rw [List.getElem?_map, List.getElem?_range' 1 1 (by omega)]
    have hj : 1 + 1 * jw = jw + 1 := by omega
    rw [hj, ← hjw]
    rfl
  · show ((retState a a.retirement_years).yearly_data).getLast? = _
    rw [retState_yearly_data, hjr, List.range'_1_concat, List.map_append,
      List.getLast?_append, List.getLast?_append]
    simp only [List.map_cons, List.map_nil, List.getLast?_singleton, Option.or_some]
    have hj : 1 + jr = jr + 1 := by omega
    rw [hj]
  · show (retState a a.retirement_years).personal_balance
        = (retRowOf a a.retirement_years (retState a (a.retirement_years - 1))).balance
    rw [hjr, retState_succ]
    simp only [Nat.add_sub_cancel]
    rfl

/-- Instantiation of `summary_balance_fields` at the sample input. -/
theorem summary_balance_fields_witness :
    (1 ≤ aEx.work_years ∧ 1 ≤ aEx.retirement_years)
    ∧ (∃ rW rR : YearRow,
      (project aEx).yearly_data[aEx.work_years - 1]? = some rW
      ∧ rW.year = "W" ++ toString aEx.work_years
      ∧ (summary aEx).fund_value_at_retirement = rW.balance
      ∧ (project aEx).yearly_data.getLast? = some rR
      ∧ rR.year = "R" ++ toString aEx.retirement_years
      ∧ (summary aEx).fund_value_at_death = rR.balance) :=
  ⟨⟨by decide, by decide⟩, summary_balance_fields aEx (by decide) (by decide)⟩

/-! ## Claim C1: the step-increase window -/

/-- A neutral input isolating the step escalation: COLA 1, no promotions,
step multiplier 2. -/
def aStep : Assumptions :=
  { step_increase := 2, starting_wage := 100, work_years := 6,
    cola_increase := 1, promotion_years := [], retirement_years := 1,
    promotion_increase := 1, pension_tax_rate := 0,
    starting_allowance := 0, index_returns_rate := 1 }

/-- C1 (divergence evidence): the code's step window is
`1 <= work_year < 5`, i.e. periods 1 through 4, not periods 2 through 5:
the escalation after period 1 multiplies the salary by the step rate (100
becomes 200 entering period 2) and the escalation after period 5 does not;
over six work periods the recorded salaries double after periods 1-4 only.
The app's own explanation text ("Years 2-5") agrees with the claim and
contradicts the loop. -/
theorem step_window_periods_one_to_four :
    nextSalary aStep 1 100 = 200
    ∧ nextSalary aStep 5 100 = 100
    ∧ ((workState aStep 6).yearly_data.map (fun r => r.salary))
        = [some 100, some 200, some 400, some 800, some 1600, some 1600] := by
  refine ⟨?_, ?_, ?_⟩
  · norm_num [nextSalary, aStep]
  · norm_num [nextSalary, aStep]
  · norm_num [workState, initState, aStep, workStep, workRowOf, nextSalary, List.range']
